import Mathlib

/-!
Verification of the gh-download fetch engine against its specification.

The embedding models the code of `gh_download/__init__.py`:
`_perform_download_and_save` (streaming a response body to the destination
path) and the recursive `download_file` (token acquisition, metadata fetch,
single-file hand-off, and directory materialization).  Network behaviour is
represented by explicit data: what `session.get` does on each call, which
chunks `iter_content` yields, and where a mid-stream exception is raised.
Filesystem state is the pair of contents at the destination path and at the
adjacent temporary path.  Components of the repository that are exercised by
its test suite but whose implementation is not part of the sources at hand
(`_retry_delay`, `_is_retryable_http_error`, `_download_and_save_file`,
`_download_via_blob_api`) are modelled from the specification and are marked
as such in their doc comments.
-/

namespace GhDownload

/-- Errors raised by `session.get` before any response body is available:
`requests.exceptions.Timeout`, `ConnectionError`, or another
`RequestException`. -/
inductive NetErr where
  | timeout
  | connectionError
  | otherRequest
deriving DecidableEq, Repr

/-- Errors raised while the response body is being streamed: a truncated /
incomplete read (`ChunkedEncodingError`), or an `OSError` from local file
I/O while writing a chunk. -/
inductive StreamErr where
  | truncated
  | osError
deriving DecidableEq, Repr

/-- The observable behaviour of one HTTP content request:
either `session.get` raises a network error, or it returns a response with a
status code whose body yields the given chunks in order and then either ends
cleanly (`none`) or raises mid-stream (`some e`). -/
inductive HttpAttempt where
  | netError (e : NetErr)
  | response (status : Nat) (chunks : List (List Nat)) (streamErr : Option StreamErr)
deriving DecidableEq, Repr

/-- Filesystem state at a single destination: the bytes currently stored at
the final destination path and at the adjacent temporary path
(`destination + ".tmp"`); `none` means the file is absent. -/
structure FS where
  dest : Option (List Nat)
  tmp : Option (List Nat)
deriving DecidableEq, Repr

/-- The empty filesystem: nothing at the destination, no temporary file. -/
def FS.empty : FS := ⟨none, none⟩

/-- Embedding of `_perform_download_and_save` (src/gh_download/__init__.py,
lines 326-362).  The function performs a single `session.get`; on success of
`raise_for_status` (status < 400) it opens the destination path itself with
mode "wb" (truncating it) and writes each chunk of `iter_content` directly to
the final path.  A `RequestException` or `OSError` is caught and `False` is
returned; no cleanup of the destination file is performed on any path.
The returned pair is (result, filesystem after the call). -/
def perform_download_and_save (att : HttpAttempt) (fs : FS) : Bool × FS :=
  match att with
  | .netError _ => (false, fs)
  | .response status chunks streamErr =>
    if 400 ≤ status then
      -- raise_for_status raises HTTPError before the file is opened
      (false, fs)
    else
      -- output_path.open("wb") truncates, then chunks yielded before any
      -- mid-stream exception are written to the final path
      match streamErr with
      | none => (true, { fs with dest := some chunks.flatten })
      | some _ => (false, { fs with dest := some chunks.flatten })

/-- The ASCII bytes of the string "partial content". -/
def midStreamBytes : List Nat :=
  [112, 97, 114, 116, 105, 97, 108, 32, 99, 111, 110, 116, 101, 110, 116]

/-- One raw entry of a directory listing as returned by the metadata
endpoint: `item.get("name")`, `item.get("type")`, `item.get("path")`,
each `none` when the field is missing from the JSON object. -/
structure RawEntry where
  name : Option String
  type : Option String
  path : Option String
deriving DecidableEq, Repr

/-- Python truthiness of `item.get(...)` for a string field: `None` and the
empty string are falsy. -/
def truthy : Option String → Bool
  | none => false
  | some s => !s.isEmpty

/-- The condition under which the directory loop of `download_file` processes
an entry (the negation of `not item_name or not item_type or not
item_path_in_repo`, src/gh_download/__init__.py line 604). -/
def RawEntry.ok (e : RawEntry) : Bool :=
  truthy e.name && truthy e.type && truthy e.path

/-- The remote repository content reachable from one requested path, as the
metadata endpoint reports it: a file object (with its optional
`download_url` and the behaviour of the subsequent content request), a
directory listing pairing each raw entry with the content reachable at the
entry's path, a metadata request that fails with a `RequestException`, or a
response of an unexpected shape. -/
inductive RemoteNode where
  | file (name : String) (downloadUrl : Option String) (att : HttpAttempt)
  | dir (entries : List (RawEntry × RemoteNode))
  | metaFail
  | unexpected
deriving Repr

/-- Observable result of one `download_file` invocation: the boolean it
returns, the number of calls to `get_github_token_from_gh_cli` made in the
whole recursion, and — for a directory invocation — the entries its own loop
examined (in order), the entries for which a recursive download was started
(in order), and the names it logged as failed children. -/
structure DLRes where
  success : Bool
  tokenFetches : Nat
  processed : List RawEntry
  attempted : List RawEntry
  failedLog : List String
deriving DecidableEq, Repr

/-- Accumulated state of the directory loop (src lines 595-632). -/
structure LoopRes where
  allSuccess : Bool
  tokenFetches : Nat
  processed : List RawEntry
  attempted : List RawEntry
  failedLog : List String
deriving DecidableEq, Repr

mutual

/-- Embedding of `download_file` (src/gh_download/__init__.py, lines
470-639).  Every invocation first calls `get_github_token_from_gh_cli`
(line 496; the credential helper is modelled as returning the same
`tok?` each time); with no token it returns `False`.  It then fetches
metadata for the requested path and dispatches: a file object without
`download_url` fails, otherwise the result is that of
`_perform_download_and_save`; a directory listing runs the entry loop;
a failed metadata request or an unexpected response shape returns
`False`. -/
def downloadFile (tok? : Option String) (node : RemoteNode) : DLRes :=
  match tok? with
  | none => ⟨false, 1, [], [], []⟩
  | some tok =>
    match node with
    | .metaFail => ⟨false, 1, [], [], []⟩
    | .unexpected => ⟨false, 1, [], [], []⟩
    | .file _ downloadUrl att =>
      match downloadUrl with
      | none => ⟨false, 1, [], [], []⟩
      | some _ => ⟨(perform_download_and_save att FS.empty).1, 1, [], [], []⟩
    | .dir entries =>
      let r := processEntries (some tok) entries
      ⟨r.allSuccess, 1 + r.tokenFetches, r.processed, r.attempted, r.failedLog⟩

/-- Embedding of the directory loop of `download_file` (src lines 599-632):
entries are visited in the order returned by the server; an entry with a
missing or empty `name`, `type` or `path` field is skipped after setting
`all_success = False`; every other entry triggers a recursive
`download_file` call, and a failed child sets `all_success = False` and is
logged by name, without stopping the loop. -/
def processEntries (tok? : Option String) (l : List (RawEntry × RemoteNode)) : LoopRes :=
  match l with
  | [] => ⟨true, 0, [], [], []⟩
  | (e, child) :: rest =>
    if e.ok then
      let r := downloadFile tok? child
      let rec1 := processEntries tok? rest
      ⟨r.success && rec1.allSuccess, r.tokenFetches + rec1.tokenFetches,
        e :: rec1.processed, e :: rec1.attempted,
        if r.success then rec1.failedLog else e.name.getD "" :: rec1.failedLog⟩
    else
      let rec1 := processEntries tok? rest
      ⟨false, rec1.tokenFetches, e :: rec1.processed, rec1.attempted, rec1.failedLog⟩

end

mutual

/-- Number of `download_file` invocations a request tree produces: one for
the root, plus — for a directory — one recursion per entry that passes the
well-formedness check. -/
def visitedCount (node : RemoteNode) : Nat :=
  match node with
  | .dir entries => 1 + visitedList entries
  | _ => 1

/-- Total `download_file` invocations produced by the well-formed entries of
a directory listing. -/
def visitedList (l : List (RawEntry × RemoteNode)) : Nat :=
  match l with
  | [] => 0
  | (e, child) :: rest => (if e.ok then visitedCount child else 0) + visitedList rest

end

/-! ## The retry engine

The repository's retry-capable fetch engine (`_is_retryable_http_error`,
`_retry_delay`, `_download_and_save_file`, `_download_via_blob_api`) is
exercised by its test suite but its implementation is not part of the
sources at hand; the definitions below are modelled from the
specification. -/

/-- Modelled from the spec: `_is_retryable_http_error` — the failure
classification for an HTTP error.  True exactly for statuses in
{404, 429, 500, 502, 503, 504}; false for every other status and for an
error with no response/status attached. -/
def is_retryable_http_error (status : Option Nat) : Bool :=
  match status with
  | none => false
  | some s => [404, 429, 500, 502, 503, 504].contains s

/-- Modelled from the spec: `_retry_delay` — exponential backoff
`2 ^ attempt`, with the attempt number starting at 0, doubled when the
status code is 429 (rate limiting). -/
def retry_delay (attempt : Nat) (status : Option Nat := none) : Nat :=
  let delay := 2 ^ attempt
  if status = some 429 then 2 * delay else delay

/-- Classification of one HTTP content attempt under the spec's Backoff
Policy: a clean 2xx stream succeeds with its bytes, connection failures,
timeouts, truncated streams and retryable HTTP statuses are retryable,
everything else (non-retryable statuses, other request errors, local I/O
errors) is fatal. -/
inductive AttemptClass where
  | ok (bytes : List Nat)
  | retryable (status : Option Nat)
  | fatal
deriving DecidableEq, Repr

/-- Modelled from the spec: how one attempt's network behaviour is
classified.  Connection failures and timeouts are retryable; other request
errors are fatal; an HTTP error status is classified by
`_is_retryable_http_error`; a truncated / incomplete stream is retryable;
a local file-write error is fatal; a clean stream under a success status
yields the concatenation of its chunks. -/
def classifyAttempt (att : HttpAttempt) : AttemptClass :=
  match att with
  | .netError .timeout => .retryable none
  | .netError .connectionError => .retryable none
  | .netError .otherRequest => .fatal
  | .response status chunks streamErr =>
    if 400 ≤ status then
      if is_retryable_http_error (some status) then .retryable (some status) else .fatal
    else
      match streamErr with
      | none => .ok chunks.flatten
      | some .truncated => .retryable none
      | some .osError => .fatal

/-- Outcome of `_download_and_save_file` / `_download_via_blob_api`: the
boolean result, how many HTTP attempts were performed, whether the failure
exhausted the retry budget, the backoff delays slept between attempts, and
the filesystem state at the destination afterwards. -/
structure Outcome where
  success : Bool
  attemptsMade : Nat
  retriesExhausted : Bool
  delays : List Nat
  fs : FS
deriving DecidableEq, Repr

/-- Modelled from the spec: the retry loop of `_download_and_save_file`.
`attempt` is the 0-based index of the attempt about to run and `budget` the
number of attempts still allowed.  Each attempt streams to a temporary file
beside the destination; on success the temporary file is atomically renamed
to the destination; on any failure the temporary file is discarded, and a
retryable failure sleeps `_retry_delay attempt status` and retries while
attempts remain (maximum 3 attempts in total). -/
def downloadLoop (behaviors : List HttpAttempt) (attempt budget : Nat) (fs : FS) : Outcome :=
  match budget with
  | 0 => ⟨false, 0, true, [], { fs with tmp := none }⟩
  | b + 1 =>
    match behaviors with
    | [] => ⟨false, 0, true, [], { fs with tmp := none }⟩
    | att :: rest =>
      match classifyAttempt att with
      | .ok bytes => ⟨true, 1, false, [], { dest := some bytes, tmp := none }⟩
      | .fatal => ⟨false, 1, false, [], { fs with tmp := none }⟩
      | .retryable status =>
        match b with
        | 0 => ⟨false, 1, true, [], { fs with tmp := none }⟩
        | _ + 1 =>
          let r := downloadLoop rest (attempt + 1) b { fs with tmp := none }
          ⟨r.success, r.attemptsMade + 1, r.retriesExhausted,
            retry_delay attempt status :: r.delays, r.fs⟩

/-- Modelled from the spec: `_download_and_save_file` — streams a file to
disk with the temp-file + atomic-rename discipline, retrying retryable
failures under the Backoff Policy with a maximum of 3 attempts (the initial
attempt plus 2 retries).  `behaviors` lists what the network does on each
successive attempt. -/
def download_and_save_file (behaviors : List HttpAttempt) (fs : FS) : Outcome :=
  downloadLoop behaviors 0 3 fs

/-! ## The blob fallback path -/

/-- Value of one character of a base64 alphabet ('A'-'Z', 'a'-'z', '0'-'9',
'+', '/'), `none` for any other character. -/
def base64CharVal (c : Char) : Option Nat :=
  if 65 ≤ c.toNat ∧ c.toNat ≤ 90 then some (c.toNat - 65)
  else if 97 ≤ c.toNat ∧ c.toNat ≤ 122 then some (c.toNat - 97 + 26)
  else if 48 ≤ c.toNat ∧ c.toNat ≤ 57 then some (c.toNat - 48 + 52)
  else if c = '+' then some 62
  else if c = '/' then some 63
  else none

/-- Standard base64 decoding of a character list: groups of four symbols
decode to three bytes, with `=` padding allowed only in the final group. -/
def base64DecodeChars : List Char → Option (List Nat)
  | [] => some []
  | c1 :: c2 :: c3 :: c4 :: rest => do
    let v1 ← base64CharVal c1
    let v2 ← base64CharVal c2
    if c3 = '=' then
      if c4 = '=' ∧ rest = [] then some [v1 * 4 + v2 / 16] else none
    else do
      let v3 ← base64CharVal c3
      if c4 = '=' then
        if rest = [] then some [v1 * 4 + v2 / 16, v2 % 16 * 16 + v3 / 4] else none
      else do
        let v4 ← base64CharVal c4
        let tail ← base64DecodeChars rest
        some ([v1 * 4 + v2 / 16, v2 % 16 * 16 + v3 / 4, v3 % 4 * 64 + v4] ++ tail)
  | _ => none

/-- Base64 decoding of a string, as `base64.b64decode` performs it on the
blob API's `content` field. -/
def base64Decode (s : String) : Option (List Nat) :=
  base64DecodeChars s.data

/-- Body of a blob-API response: its `content` and `encoding` fields. -/
structure BlobBody where
  content : String
  encoding : String
deriving DecidableEq, Repr

/-- Behaviour of one request to the blob endpoint
`GET /repos/{owner}/{repo}/git/blobs/{sha}`: a network error, or a response
with a status code and (for a success status) a JSON body. -/
inductive BlobAttempt where
  | netError (e : NetErr)
  | response (status : Nat) (body : BlobBody)
deriving DecidableEq, Repr

/-- Modelled from the spec: `_download_via_blob_api` — fetches a blob by
SHA under the same Backoff Policy (maximum 3 attempts), decodes its
`content` field (only `"base64"` encoding is supported: any other encoding
value is an immediate, non-retryable failure that writes nothing), and
writes the decoded bytes to the destination with the atomic-write
discipline. -/
def blobLoop (behaviors : List BlobAttempt) (attempt budget : Nat) (fs : FS) : Outcome :=
  match budget with
  | 0 => ⟨false, 0, true, [], { fs with tmp := none }⟩
  | b + 1 =>
    match behaviors with
    | [] => ⟨false, 0, true, [], { fs with tmp := none }⟩
    | att :: rest =>
      let retryStep (status : Option Nat) : Outcome :=
        match b with
        | 0 => ⟨false, 1, true, [], { fs with tmp := none }⟩
        | _ + 1 =>
          let r := blobLoop rest (attempt + 1) b { fs with tmp := none }
          ⟨r.success, r.attemptsMade + 1, r.retriesExhausted,
            retry_delay attempt status :: r.delays, r.fs⟩
      match att with
      | .netError .timeout => retryStep none
      | .netError .connectionError => retryStep none
      | .netError .otherRequest => ⟨false, 1, false, [], { fs with tmp := none }⟩
      | .response status body =>
        if 400 ≤ status then
          if is_retryable_http_error (some status) then retryStep (some status)
          else ⟨false, 1, false, [], { fs with tmp := none }⟩
        else if body.encoding = "base64" then
          match base64Decode body.content with
          | some bytes => ⟨true, 1, false, [], { dest := some bytes, tmp := none }⟩
          | none => ⟨false, 1, false, [], { fs with tmp := none }⟩
        else
          ⟨false, 1, false, [], { fs with tmp := none }⟩

/-- Modelled from the spec: `_download_via_blob_api` entry point, with the
3-attempt budget of the Backoff Policy. -/
def download_via_blob_api (behaviors : List BlobAttempt) (fs : FS) : Outcome :=
  blobLoop behaviors 0 3 fs

/-! ## Structure of the directory loop -/

theorem processEntries_processed (tok? : Option String) (l : List (RawEntry × RemoteNode)) :
    (processEntries tok? l).processed = l.map Prod.fst := by
  induction l with
  | nil => rw [processEntries]; rfl
  | cons hd tl ih =>
    obtain ⟨e, c⟩ := hd
    rw [processEntries]
    by_cases h : e.ok <;> simp [h, ih]

theorem processEntries_attempted (tok? : Option String) (l : List (RawEntry × RemoteNode)) :
    (processEntries tok? l).attempted = (l.filter fun p => p.1.ok).map Prod.fst := by
  induction l with
  | nil => rw [processEntries]; rfl
  | cons hd tl ih =>
    obtain ⟨e, c⟩ := hd
    rw [processEntries]
    by_cases h : e.ok <;> simp [h, ih, List.filter_cons]

theorem processEntries_allSuccess (tok? : Option String) (l : List (RawEntry × RemoteNode)) :
    (processEntries tok? l).allSuccess =
      l.all fun p => p.1.ok && (downloadFile tok? p.2).success := by
  induction l with
  | nil => rw [processEntries]; rfl
  | cons hd tl ih =>
    obtain ⟨e, c⟩ := hd
    rw [processEntries]
    by_cases h : e.ok <;> simp [h, ih, Bool.and_assoc]

theorem processEntries_failedLog (tok? : Option String) (l : List (RawEntry × RemoteNode)) :
    (processEntries tok? l).failedLog =
      l.filterMap fun p =>
        if p.1.ok && !(downloadFile tok? p.2).success then some (p.1.name.getD "")
        else none := by
  induction l with
  | nil => rw [processEntries]; rfl
  | cons hd tl ih =>
    obtain ⟨e, c⟩ := hd
    rw [processEntries]
    by_cases h : e.ok
    · by_cases hs : (downloadFile tok? c).success <;> simp [h, hs, ih]
    · simp [h, ih]

theorem processEntries_tokenFetches (tok? : Option String) (l : List (RawEntry × RemoteNode))
    (ih : ∀ p ∈ l, (downloadFile tok? p.2).tokenFetches = visitedCount p.2) :
    (processEntries tok? l).tokenFetches = visitedList l := by
  induction l with
  | nil => rw [processEntries, visitedList]
  | cons hd tl ihl =>
    obtain ⟨e, c⟩ := hd
    rw [processEntries, visitedList]
    have he := ih (e, c) (List.mem_cons_self _ _)
    have ht := ihl fun p hp => ih p (List.mem_cons_of_mem _ hp)
    by_cases h : e.ok <;> simp [h, he, ht]

/-! ## Claim theorems -/

/-- C1: evaluation of `_perform_download_and_save` at the failing input.
A 200 response streams the chunk "partial content" and then raises a
mid-stream truncation error; the function returns `False` but the fifteen
bytes already written remain at the destination path, contradicting the
claim that no partial file remains after a failed return. -/
theorem perform_download_and_save_partial_left :
    perform_download_and_save (.response 200 [midStreamBytes] (some .truncated)) FS.empty
      = (false, ⟨some midStreamBytes, none⟩) ∧ midStreamBytes ≠ [] := by
  decide

/-- The smallest request tree exhibiting token re-fetching: a directory
whose listing holds one well-formed file entry. -/
def oneFileTree : RemoteNode :=
  .dir [(⟨some "a.txt", some "file", some "a.txt"⟩,
    .file "a.txt" (some "url") (.response 200 [[104]] none))]

/-- C2 (counterexample): downloading a directory with a single well-formed
file entry invokes the credential helper twice — once in the top-level
`download_file` call and once in the recursive call for the child — so the
token is not obtained at most once per top-level invocation. -/
theorem downloadFile_token_refetched :
    ¬ (downloadFile (some "tok") oneFileTree).tokenFetches ≤ 1 := by
  decide

/-- C2 (amended): every `download_file` invocation obtains the token from
the credential helper exactly once for itself, so a recursive directory
materialization invokes the helper once per visited node — once for the
top-level call plus once for every well-formed entry recursed into — rather
than at most once per top-level invocation. -/
theorem downloadFile_tokenFetches_eq_visitedCount (tok : String) (node : RemoteNode) :
    (downloadFile (some tok) node).tokenFetches = visitedCount node := by
  suffices h : ∀ n (node : RemoteNode), sizeOf node ≤ n →
      (downloadFile (some tok) node).tokenFetches = visitedCount node by
    exact h (sizeOf node) node le_rfl
  intro n
  induction n with
  | zero =>
    intro node hle
    exfalso
    cases node <;> simp at hle
  | succ n ih =>
    intro node hle
    match node with
    | .metaFail => rfl
    | .unexpected => rfl
    | .file name url att => cases url <;> rfl
    | .dir entries =>
      have hmem : ∀ p ∈ entries, sizeOf p.2 ≤ n := by
        intro p hp
        have h1 : sizeOf p < sizeOf entries := List.sizeOf_lt_of_mem hp
        have h2 : sizeOf p.2 < sizeOf p := by
          obtain ⟨a, b⟩ := p
          simp
        simp at hle
        omega
      have hstep : (downloadFile (some tok) (.dir entries)).tokenFetches
          = 1 + (processEntries (some tok) entries).tokenFetches := rfl
      rw [hstep, processEntries_tokenFetches _ _ fun p hp => ih p.2 (hmem p hp)]
      rfl

/-- C5: the failure-classification predicate `_is_retryable_http_error` is
true for an HTTP error exactly when its status code is one of
{404, 429, 500, 502, 503, 504}, false for each status in
{400, 401, 403, 405, 422}, and false when no response/status is attached. -/
theorem is_retryable_http_error_spec :
    (∀ s : Nat, is_retryable_http_error (some s) = true ↔
        s ∈ [404, 429, 500, 502, 503, 504]) ∧
    (∀ s ∈ [400, 401, 403, 405, 422], is_retryable_http_error (some s) = false) ∧
    is_retryable_http_error none = false := by
  refine ⟨fun s => ?_, by decide, rfl⟩
  simp [is_retryable_http_error]

/-- C6: the backoff function `_retry_delay` maps attempt number `n`
(starting at 0) to `2 ^ n` seconds, doubled when the status code is 429; in
particular the delays are 1, 2, 4 and — under 429 — 2, 4. -/
theorem retry_delay_spec :
    (∀ n, retry_delay n = 2 ^ n) ∧
    (∀ n, retry_delay n (some 429) = 2 * 2 ^ n) ∧
    retry_delay 0 = 1 ∧ retry_delay 1 = 2 ∧ retry_delay 2 = 4 ∧
    retry_delay 0 (some 429) = 2 ∧ retry_delay 1 (some 429) = 4 := by
  refine ⟨fun n => by simp [retry_delay], fun n => by simp [retry_delay],
    rfl, rfl, rfl, rfl, rfl⟩

/-- C3: three consecutive retryable failures make `_download_and_save_file`
return a failure with the retry budget exhausted, performing exactly 3 HTTP
attempts (never a 4th, whatever the network would do afterwards) and leaving
no file — partial or final — at the destination path. -/
theorem download_and_save_file_three_retryable_failures
    (a1 a2 a3 : HttpAttempt) (rest : List HttpAttempt) (s1 s2 s3 : Option Nat)
    (h1 : classifyAttempt a1 = .retryable s1)
    (h2 : classifyAttempt a2 = .retryable s2)
    (h3 : classifyAttempt a3 = .retryable s3) :
    (download_and_save_file (a1 :: a2 :: a3 :: rest) FS.empty).success = false ∧
    (download_and_save_file (a1 :: a2 :: a3 :: rest) FS.empty).attemptsMade = 3 ∧
    (download_and_save_file (a1 :: a2 :: a3 :: rest) FS.empty).retriesExhausted = true ∧
    (download_and_save_file (a1 :: a2 :: a3 :: rest) FS.empty).fs = FS.empty := by
  simp [download_and_save_file, downloadLoop, h1, h2, h3, FS.empty]

/-- C3 witness: three consecutive connection errors, concretely. -/
theorem download_and_save_file_three_retryable_failures_witness :
    (download_and_save_file [.netError .connectionError, .netError .connectionError,
      .netError .connectionError] FS.empty).success = false ∧
    (download_and_save_file [.netError .connectionError, .netError .connectionError,
      .netError .connectionError] FS.empty).attemptsMade = 3 ∧
    (download_and_save_file [.netError .connectionError, .netError .connectionError,
      .netError .connectionError] FS.empty).retriesExhausted = true ∧
    (download_and_save_file [.netError .connectionError, .netError .connectionError,
      .netError .connectionError] FS.empty).fs = FS.empty :=
  download_and_save_file_three_retryable_failures _ _ _ [] none none none rfl rfl rfl

/-- C4: at most two retryable failures followed by a successful response
make `_download_and_save_file` succeed, with the destination file holding
exactly the bytes streamed by the successful response, in the expected
number of attempts. -/
theorem download_and_save_file_retryable_then_success
    (fails : List HttpAttempt) (ok : HttpAttempt) (bytes : List Nat)
    (hlen : fails.length ≤ 2)
    (hf : ∀ a ∈ fails, ∃ s, classifyAttempt a = .retryable s)
    (hok : classifyAttempt ok = .ok bytes) :
    (download_and_save_file (fails ++ [ok]) FS.empty).success = true ∧
    (download_and_save_file (fails ++ [ok]) FS.empty).fs.dest = some bytes ∧
    (download_and_save_file (fails ++ [ok]) FS.empty).attemptsMade = fails.length + 1 := by
  rcases fails with _ | ⟨a, _ | ⟨b, _ | ⟨c, tl⟩⟩⟩
  · simp [download_and_save_file, downloadLoop, hok]
  · obtain ⟨s, hs⟩ := hf a (by simp)
    simp [download_and_save_file, downloadLoop, hs, hok]
  · obtain ⟨s, hs⟩ := hf a (by simp)
    obtain ⟨s2, hs2⟩ := hf b (by simp)
    simp [download_and_save_file, downloadLoop, hs, hs2, hok]
  · simp at hlen

/-- C4 witness: a timeout, then a 503, then a successful stream of the
bytes [104, 105]. -/
theorem download_and_save_file_retryable_then_success_witness :
    (download_and_save_file [.netError .timeout, .response 503 [] none,
      .response 200 [[104, 105]] none] FS.empty).success = true ∧
    (download_and_save_file [.netError .timeout, .response 503 [] none,
      .response 200 [[104, 105]] none] FS.empty).fs.dest = some [104, 105] ∧
    (download_and_save_file [.netError .timeout, .response 503 [] none,
      .response 200 [[104, 105]] none] FS.empty).attemptsMade = 3 :=
  download_and_save_file_retryable_then_success
    [.netError .timeout, .response 503 [] none] (.response 200 [[104, 105]] none)
    [104, 105] (by decide)
    (by
      intro a ha
      simp at ha
      rcases ha with h | h <;> subst h
      · exact ⟨none, rfl⟩
      · exact ⟨some 503, rfl⟩)
    rfl

/-- C7: a directory materialization succeeds exactly when every child entry
is well-formed and its recursive download succeeded; every sibling entry is
still examined after a failure (no short-circuit); and the failure log names
exactly the well-formed children whose download failed. -/
theorem downloadFile_dir_aggregation (tok : String)
    (entries : List (RawEntry × RemoteNode)) :
    ((downloadFile (some tok) (.dir entries)).success = true ↔
      ∀ p ∈ entries, p.1.ok = true ∧ (downloadFile (some tok) p.2).success = true) ∧
    (downloadFile (some tok) (.dir entries)).processed = entries.map Prod.fst ∧
    (downloadFile (some tok) (.dir entries)).failedLog =
      entries.filterMap fun p =>
        if p.1.ok && !(downloadFile (some tok) p.2).success then some (p.1.name.getD "")
        else none := by
  have hs : (downloadFile (some tok) (.dir entries)).success
      = (processEntries (some tok) entries).allSuccess := rfl
  have hp : (downloadFile (some tok) (.dir entries)).processed
      = (processEntries (some tok) entries).processed := rfl
  have hf : (downloadFile (some tok) (.dir entries)).failedLog
      = (processEntries (some tok) entries).failedLog := rfl
  rw [hs, hp, hf, processEntries_allSuccess, processEntries_processed,
    processEntries_failedLog]
  refine ⟨?_, rfl, rfl⟩
  simp [List.all_eq_true]

/-- C8: within one directory, the recursive child downloads happen in
exactly the order the server returned the entries — in general the attempted
entries are the well-formed entries in server order, and for a listing of
well-formed entries the attempted sequence is the entry list itself, never
re-sorted or reordered. -/
theorem downloadFile_dir_order (tok : String)
    (entries : List (RawEntry × RemoteNode)) :
    (downloadFile (some tok) (.dir entries)).attempted =
      ((entries.filter fun p => p.1.ok).map Prod.fst) ∧
    ((∀ p ∈ entries, p.1.ok = true) →
      (downloadFile (some tok) (.dir entries)).attempted = entries.map Prod.fst) := by
  have ha : (downloadFile (some tok) (.dir entries)).attempted
      = (processEntries (some tok) entries).attempted := rfl
  rw [ha, processEntries_attempted]
  refine ⟨rfl, fun h => ?_⟩
  rw [List.filter_eq_self.mpr h]

/-- Two well-formed file entries listed in non-alphabetical server order,
each of whose downloads succeeds. -/
def orderedEntries : List (RawEntry × RemoteNode) :=
  [(⟨some "b.txt", some "file", some "b.txt"⟩,
      .file "b.txt" (some "u") (.response 200 [[98]] none)),
   (⟨some "a.txt", some "file", some "a.txt"⟩,
      .file "a.txt" (some "u") (.response 200 [[97]] none))]

/-- C8 witness: for the concrete two-entry listing the attempted sequence is
the entry list itself, in server order. -/
theorem downloadFile_dir_order_witness :
    (∀ p ∈ orderedEntries, p.1.ok = true) ∧
    (downloadFile (some "tok") (.dir orderedEntries)).attempted =
      orderedEntries.map Prod.fst :=
  ⟨by decide, (downloadFile_dir_order "tok" orderedEntries).2 (by decide)⟩

/-- C10: an entry of a directory listing with a missing (or empty) `name`,
`type` or `path` field is never recursed into, the remaining entries are
still processed, and the directory invocation returns `False` — even when
every well-formed entry downloads successfully. -/
theorem downloadFile_malformed_entry_skipped (tok : String)
    (entries : List (RawEntry × RemoteNode)) (p : RawEntry × RemoteNode)
    (hmem : p ∈ entries) (hbad : p.1.ok = false) :
    (downloadFile (some tok) (.dir entries)).success = false ∧
    p.1 ∉ (downloadFile (some tok) (.dir entries)).attempted ∧
    (downloadFile (some tok) (.dir entries)).processed = entries.map Prod.fst := by
  have hs : (downloadFile (some tok) (.dir entries)).success
      = (processEntries (some tok) entries).allSuccess := rfl
  have ha : (downloadFile (some tok) (.dir entries)).attempted
      = (processEntries (some tok) entries).attempted := rfl
  have hp : (downloadFile (some tok) (.dir entries)).processed
      = (processEntries (some tok) entries).processed := rfl
  refine ⟨?_, ?_, ?_⟩
  · rw [hs, processEntries_allSuccess, List.all_eq_false]
    exact ⟨p, hmem, by rw [hbad]; simp⟩
  · rw [ha, processEntries_attempted]
    simp only [List.mem_map, List.mem_filter, not_exists]
    rintro q ⟨⟨hq, hqok⟩, hqe⟩
    rw [hqe, hbad] at hqok
    exact Bool.false_ne_true hqok
  · rw [hp, processEntries_processed]

/-- A directory entry whose `type` field is missing. -/
def badEntry : RawEntry × RemoteNode :=
  (⟨some "bad.txt", none, some "bad.txt"⟩,
    .file "bad.txt" (some "u") (.response 200 [[1]] none))

/-- A listing holding the malformed entry followed by a well-formed entry
whose download succeeds. -/
def mixedEntries : List (RawEntry × RemoteNode) :=
  [badEntry,
   (⟨some "good.txt", some "file", some "good.txt"⟩,
      .file "good.txt" (some "u") (.response 200 [[2]] none))]

/-- C10 witness: the malformed entry is skipped while the well-formed
sibling is still processed (and succeeds), and the directory returns
`False`. -/
theorem downloadFile_malformed_entry_skipped_witness :
    badEntry.1.ok = false ∧
    ((downloadFile (some "t") (.dir mixedEntries)).success = false ∧
      badEntry.1 ∉ (downloadFile (some "t") (.dir mixedEntries)).attempted ∧
      (downloadFile (some "t") (.dir mixedEntries)).processed =
        mixedEntries.map Prod.fst) :=
  ⟨by decide,
    downloadFile_malformed_entry_skipped "t" mixedEntries badEntry
      (by exact List.mem_cons_self _ _) (by decide)⟩

/-- C9: on a blob-API response, a body whose `encoding` field is
`"base64"` has its content decoded and exactly the decoded bytes written to
the destination; any other encoding value fails on the first attempt,
without retrying and without writing any file at the destination. -/
theorem download_via_blob_api_encoding (body : BlobBody) (rest : List BlobAttempt)
    (bytes : List Nat) :
    (body.encoding = "base64" → base64Decode body.content = some bytes →
      (download_via_blob_api (.response 200 body :: rest) FS.empty).success = true ∧
      (download_via_blob_api (.response 200 body :: rest) FS.empty).fs.dest
        = some bytes) ∧
    (¬ body.encoding = "base64" →
      (download_via_blob_api (.response 200 body :: rest) FS.empty).success = false ∧
      (download_via_blob_api (.response 200 body :: rest) FS.empty).attemptsMade = 1 ∧
      (download_via_blob_api (.response 200 body :: rest) FS.empty).retriesExhausted
        = false ∧
      (download_via_blob_api (.response 200 body :: rest) FS.empty).fs = FS.empty) := by
  constructor
  · intro henc hdec
    simp [download_via_blob_api, blobLoop, henc, hdec]
  · intro henc
    simp [download_via_blob_api, blobLoop, henc, FS.empty]

/-- The ASCII bytes of the string "hello from blob". -/
def helloBlobBytes : List Nat :=
  [104, 101, 108, 108, 111, 32, 102, 114, 111, 109, 32, 98, 108, 111, 98]

/-- C9 witness: the base64 text of "hello from blob" decodes and is written
exactly; an `"utf-8"` encoding fails immediately with nothing written. -/
theorem download_via_blob_api_encoding_witness :
    base64Decode "aGVsbG8gZnJvbSBibG9i" = some helloBlobBytes ∧
    (download_via_blob_api [.response 200 ⟨"aGVsbG8gZnJvbSBibG9i", "base64"⟩]
      FS.empty).fs.dest = some helloBlobBytes ∧
    (download_via_blob_api [.response 200 ⟨"raw stuff", "utf-8"⟩]
      FS.empty).success = false ∧
    (download_via_blob_api [.response 200 ⟨"raw stuff", "utf-8"⟩]
      FS.empty).fs = FS.empty :=
  ⟨by decide,
    ((download_via_blob_api_encoding ⟨"aGVsbG8gZnJvbSBibG9i", "base64"⟩ []
        helloBlobBytes).1 rfl (by decide)).2,
    ((download_via_blob_api_encoding ⟨"raw stuff", "utf-8"⟩ [] []).2
      (by decide)).1,
    ((download_via_blob_api_encoding ⟨"raw stuff", "utf-8"⟩ [] []).2
      (by decide)).2.2.2⟩

end GhDownload
